import Mathlib

/-!
Shallow embedding of the MedBot repository's RAG router
(`rag_core/rag_router.py`) and medical response validator
(`safety_layer/validator.py`).

Python floats are modelled as exact rationals (ℚ); all arithmetic in the
embedded code is on simple decimal constants, sums and clamps, for which
exact arithmetic coincides with the float behaviour relevant to the
properties proved here.  Python dicts carrying fixed keys are modelled as
records.  The small fragment of Python's `re` module that the repository
uses (word boundaries, literal alternations, `.*`, `\s+`, `\w+`, `s?`,
`re.search`, `re.sub`, `re.IGNORECASE`) is embedded as an executable
matcher below; `s?` inside an alternation is transcribed by expanding the
alternation, which is equivalent for match-existence and leftmost-match
semantics.
-/

/-- Word characters per Python regex `\b` / `\w` on ASCII text. -/
def isWordChar (c : Char) : Bool := c.isAlphanum || c = '_'

/-- Whitespace per Python regex `\s` (ASCII). -/
def isPySpace (c : Char) : Bool :=
  c = ' ' || c = '\t' || c = '\n' || c = '\r' || c = Char.ofNat 11 || c = Char.ofNat 12

/-- Python's `str.lower()` on ASCII text (kernel-reducible, unlike
`String.toLower` whose `mapAux` blocks kernel evaluation). -/
def strLower (s : String) : String := String.mk (s.toList.map Char.toLower)

/-- The apostrophe character (used in several source strings and patterns). -/
def apos : Char := Char.ofNat 39

/-- The apostrophe as a one-character string. -/
def aposS : String := String.mk [apos]

/-- Patterns: the fragment of Python regexes used by the repository.
`lit` literals match case-insensitively (all uses carry `re.IGNORECASE`). -/
inductive Patt where
  | fail
  | lit (l : List Char)
  | anyStar
  | wsPlus
  | wordPlus
  | boundary
  | alt (p q : Patt)
  | seq (p q : Patt)

/-- Match a literal (case-insensitively), tracking the last consumed char. -/
def matchLit : List Char → Option Char → List Char → List (Option Char × List Char)
  | [], prev, s => [(prev, s)]
  | _ :: _, _, [] => []
  | p :: ps, _, c :: cs => if c.toLower = p then matchLit ps (some c) cs else []

/-- All states reachable by `.*` (any run of non-newline characters). -/
def starSplits (prev : Option Char) : List Char → List (Option Char × List Char)
  | [] => [(prev, [])]
  | c :: cs => (prev, c :: cs) :: (if c = '\n' then [] else starSplits (some c) cs)

/-- All states reachable by consuming one or more characters satisfying `good`. -/
def plusSplits (good : Char → Bool) : List Char → List (Option Char × List Char)
  | [] => []
  | c :: cs => if good c then (some c, cs) :: plusSplits good cs else []

/-- Wordness of an optional character (string edges count as non-word). -/
def optWord : Option Char → Bool
  | some c => isWordChar c
  | none => false

/-- All states reachable by matching `p` at the current position.
`prev` is the character just before the position (for `\b`).  The returned
list is ordered by the backtracking preference of Python's `re` engine
(alternatives in order), so its head is the match `re` itself would pick. -/
def matchOne : Patt → Option Char → List Char → List (Option Char × List Char)
  | .fail, _, _ => []
  | .lit l, prev, s => matchLit l prev s
  | .anyStar, prev, s => starSplits prev s
  | .wsPlus, _, s => plusSplits isPySpace s
  | .wordPlus, _, s => plusSplits isWordChar s
  | .boundary, prev, s =>
      if optWord prev != optWord s.head? then [(prev, s)] else []
  | .alt p q, prev, s => matchOne p prev s ++ matchOne q prev s
  | .seq p q, prev, s =>
      (matchOne p prev s).flatMap fun st => matchOne q st.1 st.2

/-- `re.search` truthiness: does `p` match starting at some position? -/
def searchFrom (p : Patt) : Option Char → List Char → Bool
  | prev, [] => !(matchOne p prev []).isEmpty
  | prev, c :: cs => !(matchOne p prev (c :: cs)).isEmpty || searchFrom p (some c) cs

/-- `re.search(p, text)` is truthy. -/
def reSearch (p : Patt) (text : String) : Bool := searchFrom p none text.toList

/-- `re.sub(p, repl, s)`: replace each leftmost non-overlapping match.
Boundary context (`prev`) is taken from the original text, as in `re`. -/
def subAll (p : Patt) (repl : List Char) : Option Char → List Char → List Char
  | _, [] => []
  | prev, c :: cs =>
    match (matchOne p prev (c :: cs)).head? with
    | some st =>
        if hlt : st.2.length < cs.length + 1 then repl ++ subAll p repl st.1 st.2
        else repl ++ c :: subAll p repl (some c) cs
    | none => c :: subAll p repl (some c) cs
  termination_by _ s => s.length
  decreasing_by
    all_goals first
      | simpa using hlt
      | simp

/-- `re.sub` on strings. -/
def reSub (p : Patt) (repl : String) (s : String) : String :=
  String.mk (subAll p repl.toList none s.toList)

/-- Alternation of a list of patterns (in order). -/
def altList : List Patt → Patt
  | [] => .fail
  | [p] => p
  | p :: ps => .alt p (altList ps)

/-- Sequencing of a list of patterns. -/
def seqList : List Patt → Patt
  | [] => .lit []
  | [p] => p
  | p :: ps => .seq p (seqList ps)

/-- A literal pattern from a string. -/
def litS (s : String) : Patt := .lit s.toList

/-- `\b(w1|w2|...)\b` for literal alternatives. -/
def wordAlt (ws : List String) : Patt :=
  seqList [.boundary, altList (ws.map litS), .boundary]

/-- `any(re.search(pattern, text) for pattern in patterns)`. -/
def matchesAnyPattern (text : String) (ps : List Patt) : Bool :=
  ps.any fun p => searchFrom p none text.toList

/-! ### Router data model (`rag_core/rag_router.py`, `rag_core/vector_store.py`) -/

/-- Types of medical queries for routing decisions. -/
inductive QueryType where
  | emergency
  | drug_interaction
  | symptom_check
  | medication_info
  | chronic_care
  | mental_health
  | general_health
  | diagnostic
deriving DecidableEq

/-- Represents routing decision with confidence and strategy. -/
structure RoutingDecision where
  query_type : QueryType
  confidence : ℚ
  retrieval_strategy : String
  emergency_flag : Bool
  recommended_k : Nat
  category_filter : Option String
deriving DecidableEq

/-- Represents a medical knowledge document with metadata
(`vector_store.MedicalDocument`; the metadata dict is modelled as an
association list). -/
structure MedicalDocument where
  content : String
  source : String
  category : String
  confidence : ℚ
  last_updated : String
  doc_id : String
  metadata : List (String × String)
deriving DecidableEq

/-- Result from vector search with confidence and attribution
(`vector_store.RetrievalResult`). -/
structure RetrievalResult where
  document : MedicalDocument
  relevance_score : ℚ
  context_snippet : String
deriving DecidableEq

/-- A per-source attribution dict built by `generate_rag_response`
(keys `source`, `category`, `confidence`, `relevance`, `last_updated`;
the emergency entry carries only `source` and `confidence`, the missing
keys are modelled as `none`). -/
structure SourceEntry where
  source : String
  category : Option String
  confidence : ℚ
  relevance : Option ℚ
  last_updated : Option String
deriving DecidableEq

/-- Complete RAG response with context and attribution. -/
structure RAGResponse where
  answer : String
  sources : List SourceEntry
  confidence : ℚ
  query_type : QueryType
  emergency_detected : Bool
  context_used : String

/-! ### Router pattern tables (`load_routing_patterns`) -/

/-- Emergency keywords (highest priority). -/
def emergency_patterns : List Patt :=
  [ wordAlt ["chest pain", "heart attack", "stroke", "seizure", "overdose"],
    wordAlt ["suicide", "suicidal", "kill myself"],
    wordAlt ["emergency", "911", "urgent", "immediate"],
    wordAlt ["unconscious", "bleeding heavily", "choking"],
    wordAlt ["severe allergic reaction", "anaphylaxis"],
    seqList [.boundary,
      .alt (.lit ("can".toList ++ [apos] ++ "t breathe".toList)) (litS "difficulty breathing"),
      .boundary] ]

/-- Drug interaction patterns. -/
def interaction_patterns : List Patt :=
  [ seqList [wordAlt ["interaction", "combine", "mix", "together"], .anyStar,
      wordAlt ["medication", "drug", "pill"]],
    seqList [.boundary, litS "can i take", .boundary, .anyStar, .boundary, litS "with", .boundary],
    seqList [.boundary, altList [litS "safe to", litS "danger", litS "risk"], .anyStar,
      wordAlt ["combine", "mix"]],
    seqList [.boundary, litS "medicine", .anyStar, .boundary, litS "together", .boundary] ]

/-- Symptom check patterns. -/
def symptom_patterns : List Patt :=
  [ wordAlt ["symptom", "feel", "pain", "ache", "hurt"],
    wordAlt ["headache", "fever", "nausea", "dizzy"],
    seqList [.boundary, litS "have", .anyStar, wordAlt ["for", "since"]],
    wordAlt ["what could cause"],
    wordAlt ["experiencing"] ]

/-- Medication info patterns (`side effects?` expanded). -/
def medication_patterns : List Patt :=
  [ wordAlt ["side effect", "side effects", "dosage", "how much"],
    seqList [.boundary, litS "medication", .anyStar, wordAlt ["for", "treat"]],
    seqList [.boundary, litS "take", .anyStar, wordAlt ["daily", "times"]],
    wordAlt ["prescription"] ]

/-- Chronic care patterns (`blood (pressure|sugar|glucose)` expanded). -/
def chronic_patterns : List Patt :=
  [ wordAlt ["diabetes", "hypertension", "asthma", "arthritis"],
    wordAlt ["manage", "management", "control"],
    seqList [wordAlt ["diet", "exercise", "lifestyle"], .anyStar, wordAlt ["chronic", "condition"]],
    wordAlt ["blood pressure", "blood sugar", "blood glucose"] ]

/-- Mental health patterns. -/
def mental_health_patterns : List Patt :=
  [ wordAlt ["anxiety", "depression", "stress", "mental"],
    wordAlt ["mood", "feeling", "emotional"],
    wordAlt ["therapy", "counseling", "support"],
    wordAlt ["sleep", "insomnia", "tired"] ]

/-- Diagnostic patterns. -/
def diagnostic_patterns : List Patt :=
  [ wordAlt ["test", "lab", "blood work", "scan"],
    wordAlt ["diagnosis", "diagnose", "what is"],
    wordAlt ["results", "levels", "values"],
    wordAlt ["normal range", "abnormal"] ]

/-! ### Router operations -/

/-- `MedicalRAGRouter._matches_patterns`. -/
def matches_patterns (text : String) (patterns : List Patt) : Bool :=
  matchesAnyPattern text patterns

/-- The RASA intent mapping used inside `classify_query`. -/
def intent_mapping (rasa_intent : String) : Option QueryType :=
  if rasa_intent = "ask_medication" then some .medication_info
  else if rasa_intent = "symptom_check" then some .symptom_check
  else if rasa_intent = "chronic_care" then some .chronic_care
  else if rasa_intent = "mental_health" then some .mental_health
  else none

/-- The `strategy_map` dict of `_create_routing_decision`
(EMERGENCY and GENERAL_HEALTH have no entry; lookups fall back to the
`.get` default `("hybrid_search", 5, None)`). -/
def strategy_map : QueryType → Option (String × Nat × Option String)
  | .drug_interaction => some ("interaction_focused", 3, some "interaction")
  | .symptom_check => some ("symptom_focused", 4, some "symptom")
  | .medication_info => some ("medication_focused", 3, some "medication")
  | .chronic_care => some ("chronic_focused", 4, some "chronic_condition")
  | .mental_health => some ("mental_health_focused", 3, some "mental_health")
  | .diagnostic => some ("diagnostic_focused", 4, none)
  | .general_health => some ("hybrid_search", 5, none)
  | .emergency => none

/-- `MedicalRAGRouter._create_routing_decision` (its `query` argument is
unused in the source and omitted here). -/
def create_routing_decision (query_type : QueryType) (confidence : ℚ) : RoutingDecision :=
  let skc := (strategy_map query_type).getD ("hybrid_search", 5, none)
  { query_type := query_type
    confidence := confidence
    retrieval_strategy := skc.1
    emergency_flag := false
    recommended_k := skc.2.1
    category_filter := skc.2.2 }

/-- The pattern-based classification cascade of `classify_query`
(reached when no emergency pattern matches and the RASA intent, if any,
is not in the intent mapping). -/
def patternClassify (query_lower : String) : RoutingDecision :=
  if matches_patterns query_lower interaction_patterns then
    create_routing_decision .drug_interaction (85/100)
  else if matches_patterns query_lower symptom_patterns then
    create_routing_decision .symptom_check (8/10)
  else if matches_patterns query_lower medication_patterns then
    create_routing_decision .medication_info (8/10)
  else if matches_patterns query_lower chronic_patterns then
    create_routing_decision .chronic_care (8/10)
  else if matches_patterns query_lower mental_health_patterns then
    create_routing_decision .mental_health (8/10)
  else if matches_patterns query_lower diagnostic_patterns then
    create_routing_decision .diagnostic (75/100)
  else
    { query_type := .general_health
      confidence := 6/10
      retrieval_strategy := "hybrid_search"
      emergency_flag := false
      recommended_k := 5
      category_filter := none }

/-- `MedicalRAGRouter.classify_query`.  A `rasa_intent` that is `None` or
absent from the intent mapping falls through to the pattern cascade
(`if rasa_intent:` is also falsy on the empty string, which is likewise
absent from the mapping, so `Option.bind` models it exactly). -/
def classify_query (query : String) (rasa_intent : Option String) : RoutingDecision :=
  let query_lower := strLower query
  if matches_patterns query_lower emergency_patterns then
    { query_type := .emergency
      confidence := 95/100
      retrieval_strategy := "emergency_protocol"
      emergency_flag := true
      recommended_k := 1
      category_filter := none }
  else
    match rasa_intent.bind intent_mapping with
    | some query_type => create_routing_decision query_type (9/10)
    | none => patternClassify query_lower

/-! ### Router retrieval post-processing and response generation -/

/-- The `boost_map` dict of `_apply_type_specific_filtering`, as a lookup
from query type and document category to the boost factor. -/
def boost_map (query_type : QueryType) (category : String) : Option ℚ :=
  match query_type with
  | .drug_interaction =>
      if category = "interaction" then some (12/10)
      else if category = "medication" then some (11/10) else none
  | .symptom_check =>
      if category = "symptom" then some (12/10)
      else if category = "chronic_condition" then some (11/10) else none
  | .medication_info =>
      if category = "medication" then some (12/10)
      else if category = "interaction" then some (11/10) else none
  | .chronic_care =>
      if category = "chronic_condition" then some (12/10)
      else if category = "symptom" then some (11/10) else none
  | .mental_health =>
      if category = "mental_health" then some (12/10) else none
  | _ => none

/-- The boosting loop of `_apply_type_specific_filtering`: multiply the
relevance score of a result whose category is in the boost table by the
boost factor and cap at 1.0. -/
def boostResults (results : List RetrievalResult) (query_type : QueryType) :
    List RetrievalResult :=
  results.map fun r =>
    match boost_map query_type r.document.category with
    | some b => { r with relevance_score := min 1 (r.relevance_score * b) }
    | none => r

/-- Python's `list.sort(key=..., reverse=True)`: a stable sort placing
higher relevance scores first. -/
def sortByRelevanceDesc (l : List RetrievalResult) : List RetrievalResult :=
  l.mergeSort fun a b => decide (b.relevance_score ≤ a.relevance_score)

/-- `MedicalRAGRouter._apply_type_specific_filtering`. -/
def apply_type_specific_filtering (results : List RetrievalResult)
    (query_type : QueryType) : List RetrievalResult :=
  sortByRelevanceDesc (boostResults results query_type)

/-- The `type_specific_instructions` dict of `_create_specialized_prompt`
(EMERGENCY has no entry; the lookup falls back to the `.get` default). -/
def type_specific_instructions : QueryType → Option String
  | .drug_interaction => some "Focus on drug interactions, safety concerns, and contraindications. Always recommend consulting a pharmacist or doctor for drug combinations."
  | .symptom_check => some "Provide general information about symptoms and when to seek medical care. Never provide definitive diagnoses. Include warning signs that require immediate medical attention."
  | .medication_info => some ("Provide factual information about medications including uses, side effects, and precautions. Always remind the user to follow their doctor" ++ aposS ++ "s instructions.")
  | .chronic_care => some "Focus on evidence-based management strategies, lifestyle modifications, and monitoring recommendations. Emphasize the importance of working with healthcare providers."
  | .mental_health => some "Provide supportive information and coping strategies. Include crisis resources when appropriate. Never provide therapy or replace professional mental health care."
  | .diagnostic => some "Explain what tests measure and normal ranges when available. Emphasize that interpretation should be done by healthcare professionals."
  | .general_health => some "Provide general health information while emphasizing the importance of personalized medical advice."
  | .emergency => none

/-- `MedicalRAGRouter._create_specialized_prompt`. -/
def create_specialized_prompt (query : String) (query_type : QueryType)
    (context : String) : String :=
  let base_prompt :=
    "Based on the following medical information sources, please provide a helpful and accurate response to the user" ++ aposS ++ "s question.\n\nUser Question: " ++ query ++ "\n\nMedical Context:\n" ++ context ++ "\n\n"
  let instruction :=
    (type_specific_instructions query_type).getD "Provide helpful medical information."
  base_prompt ++ "\nInstructions: " ++ instruction ++ "\n\nRemember to:\n1. Base your response on the provided context\n2. Include a disclaimer about consulting healthcare professionals\n3. Be clear and easy to understand\n4. Cite sources when possible\n5. Never provide definitive medical diagnoses\n\nResponse:"

/-- The answer text returned by `generate_rag_response` when no context
documents were retrieved. -/
def no_context_answer : String :=
  "I couldn" ++ aposS ++ "t find specific information about your query. Please consult a healthcare professional."

/-- The answer text of the emergency branch of `generate_rag_response`. -/
def emergency_answer : String :=
  "⚠️ MEDICAL EMERGENCY DETECTED ⚠️\n\nPlease call emergency services immediately (911 in US, 999 in UK, 112 in EU) or go to the nearest emergency room. Do not delay seeking immediate medical attention."

/-- The answer text of the exception handler of `generate_rag_response`. -/
def generation_error_answer : String :=
  "I" ++ aposS ++ "m unable to provide a response at this time. Please consult a healthcare professional."

/-- `MedicalRAGRouter.generate_rag_response`.  The external LLM
collaborator is modelled as a function from prompt and context text to
`Except`, whose `error` case stands for a raised exception; the method's
`try/except` turns any such exception into the fallback response. -/
def generate_rag_response (query : String) (context : List RetrievalResult)
    (query_type : QueryType)
    (llm_generate_func : String → String → Except String String) : RAGResponse :=
  if context = [] then
    { answer := no_context_answer
      sources := []
      confidence := 1/10
      query_type := query_type
      emergency_detected := false
      context_used := "" }
  else if query_type = .emergency then
    { answer := emergency_answer
      sources := [{ source := "Emergency Protocol", category := none, confidence := 1,
                    relevance := none, last_updated := none }]
      confidence := 1
      query_type := query_type
      emergency_detected := true
      context_used := "Emergency protocol activated" }
  else
    let used := context.take 3
    let context_parts := used.enum.map fun ir =>
      "Source " ++ toString (ir.1 + 1) ++ ": " ++ ir.2.context_snippet
    let sources := used.map fun r =>
      { source := r.document.source
        category := some r.document.category
        confidence := r.document.confidence
        relevance := some r.relevance_score
        last_updated := some r.document.last_updated : SourceEntry }
    let context_text := String.intercalate "\n\n" context_parts
    let prompt := create_specialized_prompt query query_type context_text
    match llm_generate_func prompt context_text with
    | .error _ =>
        { answer := generation_error_answer
          sources := []
          confidence := 1/10
          query_type := query_type
          emergency_detected := false
          context_used := "" }
    | .ok llm_response =>
        let avg_relevance :=
          (context.map (·.relevance_score)).sum / (context.length : ℚ)
        let avg_source_confidence :=
          (context.map (·.document.confidence)).sum / (context.length : ℚ)
        let overall_confidence := (avg_relevance + avg_source_confidence) / 2
        { answer := llm_response
          sources := sources
          confidence := overall_confidence
          query_type := query_type
          emergency_detected := false
          context_used := context_text }

/-! ### Validator data model (`safety_layer/validator.py`) -/

/-- Validation severity levels. -/
inductive ValidationLevel where
  | safe
  | warning
  | unsafe_level
  | emergency
deriving DecidableEq

/-- A source dict passed to the validator (keys `source` and
`confidence`; the `.get` defaults of the source are unreachable in this
model because both keys are always present). -/
structure SourceDict where
  source : String
  confidence : ℚ
deriving DecidableEq

/-- Result of safety validation with detailed feedback. -/
structure ValidationResult where
  level : ValidationLevel
  is_safe : Bool
  modified_response : String
  warnings : List String
  sources_verified : Bool
  confidence_score : ℚ
  recommendations : List String

/-! ### Validator pattern tables (`load_safety_patterns`) -/

/-- Critical unsafe patterns (immediate rejection); `pills?` expanded. -/
def critical_unsafe_patterns : List Patt :=
  [ seqList [.boundary, altList [litS "stop taking", litS "discontinue", litS "quit"],
      .wsPlus, altList [litS "medication", litS "medicine", litS "pill", litS "pills"],
      .boundary],
    wordAlt ["take more", "increase dose", "double dose"],
    wordAlt ["you have", "diagnosed with", "definitely have"],
    wordAlt ["cure", "will fix", "guaranteed to work"],
    seqList [.boundary,
      .alt (litS "never see a doctor")
        (.lit ("don".toList ++ [apos] ++ "t need medical care".toList)),
      .boundary],
    wordAlt ["instead of seeing doctor", "replace medical treatment"] ]

/-- Warning patterns (require modification). -/
def warning_patterns : List Patt :=
  [ wordAlt ["should take", "recommended dose", "try taking"],
    seqList [.boundary, altList [litS "probably", litS "likely", litS "might be", litS "could be"],
      .wsPlus, .wordPlus, .wsPlus,
      altList [litS "disease", litS "condition", litS "syndrome"], .boundary],
    wordAlt ["home remedy", "natural cure", "alternative to medicine"],
    wordAlt ["self-treat", "treat yourself", "manage on your own"],
    wordAlt ["medical advice", "diagnosis", "treatment plan"] ]

/-- Emergency indicators. -/
def emergency_indicators : List Patt :=
  [ wordAlt ["call 911", "emergency room", "immediate medical attention"],
    wordAlt ["life-threatening", "critical condition", "urgent care"],
    wordAlt ["heart attack", "stroke", "severe allergic reaction"] ]

/-- Required disclaimers keywords. -/
def required_disclaimers : List String :=
  ["consult", "healthcare", "professional", "doctor", "physician"]

/-! ### Validator disclaimers (`load_medical_disclaimers`) -/

/-- The `disclaimers` dict, as a lookup by key. -/
def disclaimers : String → Option String
  | "general" => some "This information is for educational purposes only and should not replace professional medical advice. Please consult a healthcare provider for personalized guidance."
  | "medication" => some ("Medication information provided is general in nature. Always follow your doctor" ++ aposS ++ "s instructions and consult a pharmacist or physician before making any changes to your medication regimen.")
  | "symptom" => some "Symptom information is provided for general awareness only. For accurate diagnosis and treatment, please consult a qualified healthcare professional."
  | "emergency" => some ("If you" ++ aposS ++ "re experiencing a medical emergency, please call emergency services immediately (911 in US, 999 in UK, 112 in EU) or go to the nearest emergency room.")
  | "chronic" => some ("Management of chronic conditions requires ongoing medical supervision. This information supplements but does not replace your healthcare team" ++ aposS ++ "s guidance.")
  | "mental_health" => some "Mental health support information is provided for general guidance. For professional mental health care, please consult a licensed therapist or counselor. In crisis situations, contact emergency services or a crisis helpline."
  | _ => none

/-- The general disclaimer (always present in the dict). -/
def general_disclaimer : String := (disclaimers "general").getD ""

/-! ### Validator helper methods -/

/-- Contiguous-sublist test on character lists. -/
def containsSubList (haystack needle : List Char) : Bool :=
  match haystack with
  | [] => needle.isEmpty
  | _ :: cs => needle.isPrefixOf haystack || containsSubList cs needle

/-- Python's `needle in haystack` substring test. -/
def containsSub (haystack needle : String) : Bool :=
  containsSubList haystack.toList needle.toList

/-- `MedicalResponseValidator._contains_critical_unsafe_content`. -/
def contains_critical_unsafe_content (response : String) : Bool :=
  matchesAnyPattern response critical_unsafe_patterns

/-- `MedicalResponseValidator._contains_warning_patterns`. -/
def contains_warning_patterns (response : String) : Bool :=
  matchesAnyPattern response warning_patterns

/-- `MedicalResponseValidator._contains_emergency_indicators`. -/
def contains_emergency_indicators (response : String) : Bool :=
  matchesAnyPattern response emergency_indicators

/-- `MedicalResponseValidator._has_appropriate_disclaimer`: at least two
of the disclaimer keywords occur in the (lowercased) response. -/
def has_appropriate_disclaimer (response : String) : Bool :=
  2 ≤ (required_disclaimers.countP fun keyword => containsSub response keyword)

/-- `MedicalResponseValidator._add_safety_qualifiers`: the two `re.sub`
rewrites, applied in order. -/
def add_safety_qualifiers (response : String) : String :=
  let r1 := reSub (wordAlt ["you should", "recommended", "try"])
    "you might consider discussing with your doctor" response
  reSub (wordAlt ["you have", "diagnosed with", "condition is"])
    "symptoms may suggest - consult a doctor for proper diagnosis" r1

/-- `MedicalResponseValidator._add_disclaimer`. -/
def add_disclaimer (response : String) (query_type : Option String) : String :=
  let disclaimer_type :=
    match query_type with
    | none => "general"
    | some qt =>
      if qt = "" then "general"
      else
        let q := strLower qt
        if containsSub q "medication" || containsSub q "drug" then "medication"
        else if containsSub q "symptom" then "symptom"
        else if containsSub q "emergency" then "emergency"
        else if containsSub q "chronic" then "chronic"
        else if containsSub q "mental" then "mental_health"
        else "general"
  let disclaimer := (disclaimers disclaimer_type).getD general_disclaimer
  response ++ "\n\n⚠️ **Medical Disclaimer:** " ++ disclaimer

/-- `MedicalResponseValidator._enhance_emergency_response`. -/
def enhance_emergency_response (response : String) : String :=
  "🚨 **MEDICAL EMERGENCY** 🚨\n\n" ++ response ++
    "\n\n**IMMEDIATE ACTIONS:**\n• Call emergency services now (911/999/112)\n• Do not delay seeking professional medical help\n• Follow emergency responder instructions\n• Stay calm and seek immediate assistance"

/-- `MedicalResponseValidator._get_safe_fallback_response`. -/
def safe_fallback_response : String :=
  "I" ++ aposS ++ "m unable to provide specific medical advice for your query. For your safety and to get accurate information, please consult a qualified healthcare professional who can properly assess your individual situation and provide personalized guidance.\n\n⚠️ **Medical Disclaimer:** " ++ general_disclaimer

/-- The credible source whitelist of `_verify_sources`.  Entries are kept
with the exact casing of the source code; they are matched by Python's
case-sensitive `in` against the lowercased source name. -/
def credible_sources : List String :=
  ["internal_kb", "CDC", "WHO", "DrugBank", "MedlinePlus", "Emergency Protocol"]

/-- Whether a source counts towards `verified_count` in
`_verify_sources`: some whitelist entry is a substring of the lowercased
source name. -/
def isCredibleSource (s : SourceDict) : Bool :=
  credible_sources.any fun credible => containsSub (strLower s.source) credible

/-- The loop of `_verify_sources`: returns `none` if some source has
confidence below 0.7 (the early `return False`), otherwise the final
`verified_count`. -/
def verifyLoop : List SourceDict → Nat → Option Nat
  | [], acc => some acc
  | s :: rest, acc =>
      let acc1 := if isCredibleSource s then acc + 1 else acc
      if s.confidence < 7/10 then none else verifyLoop rest acc1

/-- `MedicalResponseValidator._verify_sources`. -/
def verify_sources (sources : List SourceDict) : Bool :=
  if sources = [] then false
  else
    match verifyLoop sources 0 with
    | none => false
    | some verified_count => (sources.length : ℚ) * (1/2) ≤ (verified_count : ℚ)

/-- `MedicalResponseValidator._calculate_confidence_score`. -/
def calculate_confidence_score (response : String)
    (sources : Option (List SourceDict)) (validation_level : ValidationLevel) : ℚ :=
  let base_score : ℚ := 8/10
  let level_adjustment : ℚ :=
    match validation_level with
    | .safe => 0
    | .warning => -(1/10)
    | .unsafe_level => -(8/10)
    | .emergency => 2/10
  let score := base_score + level_adjustment
  let score :=
    match sources with
    | none => score - 1/10
    | some [] => score - 1/10
    | some l =>
        let avg_source_confidence := (l.map (·.confidence)).sum / (l.length : ℚ)
        (score + avg_source_confidence) / 2
  let score := if containsSub (strLower response) "medical disclaimer" then score + 1/20 else score
  max 0 (min 1 score)

/-- Python truthiness of the optional sources list (`if sources:`). -/
def sourcesTruthy : Option (List SourceDict) → Bool
  | none => false
  | some [] => false
  | some (_ :: _) => true

/-- `MedicalResponseValidator.validate_response`.  The `try/except` wrapper
of the source cannot fire in this model (no embedded operation raises), so
the internal-error branch is not represented. -/
def validate_response (response : String) (sources : Option (List SourceDict))
    (query_type : Option String) : ValidationResult :=
  let response_lower := strLower response
  if contains_critical_unsafe_content response_lower then
    { level := .unsafe_level
      is_safe := false
      modified_response := safe_fallback_response
      warnings := ["Response contained potentially harmful medical advice"]
      sources_verified := false
      confidence_score := 0
      recommendations := ["Human medical professional consultation required"] }
  else if contains_emergency_indicators response_lower then
    { level := .emergency
      is_safe := true
      modified_response := enhance_emergency_response response
      warnings := ["Emergency situation detected"]
      sources_verified := true
      confidence_score := 1
      recommendations := ["Immediate medical attention required"] }
  else
    let hasWarning := contains_warning_patterns response_lower
    let modified0 := if hasWarning then add_safety_qualifiers response else response
    let warning_level := if hasWarning then ValidationLevel.warning else .safe
    let warnings0 : List String :=
      if hasWarning then ["Response required safety modifications"] else []
    let recommendations0 : List String :=
      if hasWarning then ["Added medical disclaimers and safety qualifiers"] else []
    let sources_verified :=
      if sourcesTruthy sources then verify_sources (sources.getD []) else false
    let warnings1 :=
      warnings0 ++ (if sourcesTruthy sources && !sources_verified then
        ["Source verification incomplete"] else [])
    let recommendations1 :=
      recommendations0 ++ (if sourcesTruthy sources && !sources_verified then
        ["Verify source credibility and recency"] else [])
    let has_disclaimer := has_appropriate_disclaimer response_lower
    let modified1 := if has_disclaimer then modified0 else add_disclaimer modified0 query_type
    let recommendations2 :=
      recommendations1 ++ (if has_disclaimer then [] else ["Added appropriate medical disclaimer"])
    let confidence_score := calculate_confidence_score modified1 sources warning_level
    { level := warning_level
      is_safe := true
      modified_response := modified1
      warnings := warnings1
      sources_verified := sources_verified
      confidence_score := confidence_score
      recommendations := recommendations2 }

/-! ### Concrete sample inputs used for instantiations -/

/-- A sample medical document. -/
def sampleDoc : MedicalDocument :=
  { content := "Sleep hygiene guidance"
    source := "internal_kb"
    category := "mental_health"
    confidence := 9/10
    last_updated := "2024-01-01"
    doc_id := "doc1"
    metadata := [] }

/-- A sample retrieval result (relevance within the documented [0,1] range). -/
def sampleResult : RetrievalResult :=
  { document := sampleDoc, relevance_score := 3/5, context_snippet := "Sleep hygiene guidance" }

/-- A document with adjustable confidence, for the four-result context. -/
def cexDoc (conf : ℚ) : MedicalDocument :=
  { content := "c"
    source := "internal_kb"
    category := "general"
    confidence := conf
    last_updated := "2024-01-01"
    doc_id := "d"
    metadata := [] }

/-- A four-result context whose fourth result drags the full-list averages
below the averages over the top three results. -/
def ctx4 : List RetrievalResult :=
  [ { document := cexDoc 1, relevance_score := 1, context_snippet := "s1" },
    { document := cexDoc 1, relevance_score := 1, context_snippet := "s2" },
    { document := cexDoc 1, relevance_score := 1, context_snippet := "s3" },
    { document := cexDoc 0, relevance_score := 0, context_snippet := "s4" } ]

/-! ## Theorems -/

/-- C1: for every query whose lowercased text matches at least one
emergency pattern, `classify_query` returns the EMERGENCY routing decision
(confidence 0.95, strategy "emergency_protocol", emergency_flag true,
recommended_k 1, no category filter), for every value of the optional
upstream RASA intent: the emergency check is evaluated first and preempts
both the intent mapping and the pattern cascade. -/
theorem classify_query_emergency_preempts (query : String) (rasa_intent : Option String)
    (h : matches_patterns (strLower query) emergency_patterns = true) :
    classify_query query rasa_intent =
      { query_type := .emergency
        confidence := 95/100
        retrieval_strategy := "emergency_protocol"
        emergency_flag := true
        recommended_k := 1
        category_filter := none } := by
  unfold classify_query
  simp [h]

/-- Witness for C1 at the query "I have chest pain" with a competing
upstream intent from the intent mapping. -/
theorem classify_query_emergency_preempts_witness :
    matches_patterns (strLower "I have chest pain") emergency_patterns = true ∧
    classify_query "I have chest pain" (some "symptom_check") =
      { query_type := .emergency
        confidence := 95/100
        retrieval_strategy := "emergency_protocol"
        emergency_flag := true
        recommended_k := 1
        category_filter := none } :=
  ⟨by decide, classify_query_emergency_preempts "I have chest pain" (some "symptom_check") (by decide)⟩

/-- C5: for every query matching no emergency pattern and carrying no
upstream intent usable by the intent mapping, `classify_query` evaluates
the interaction, symptom, medication, chronic, mental-health and
diagnostic pattern sets in that fixed order; the first matching category
wins with confidence 0.85, 0.80, 0.80, 0.80, 0.80, 0.75 respectively and
its static strategy/k/category_filter; if none matches, the result is
GENERAL_HEALTH with confidence 0.6, strategy "hybrid_search",
recommended_k 5 and no category filter. -/
theorem classify_query_pattern_cascade (query : String) (rasa_intent : Option String)
    (hE : matches_patterns (strLower query) emergency_patterns = false)
    (hI : rasa_intent.bind intent_mapping = none) :
    classify_query query rasa_intent =
      (if matches_patterns (strLower query) interaction_patterns then
        { query_type := .drug_interaction, confidence := 85/100,
          retrieval_strategy := "interaction_focused", emergency_flag := false,
          recommended_k := 3, category_filter := some "interaction" }
      else if matches_patterns (strLower query) symptom_patterns then
        { query_type := .symptom_check, confidence := 8/10,
          retrieval_strategy := "symptom_focused", emergency_flag := false,
          recommended_k := 4, category_filter := some "symptom" }
      else if matches_patterns (strLower query) medication_patterns then
        { query_type := .medication_info, confidence := 8/10,
          retrieval_strategy := "medication_focused", emergency_flag := false,
          recommended_k := 3, category_filter := some "medication" }
      else if matches_patterns (strLower query) chronic_patterns then
        { query_type := .chronic_care, confidence := 8/10,
          retrieval_strategy := "chronic_focused", emergency_flag := false,
          recommended_k := 4, category_filter := some "chronic_condition" }
      else if matches_patterns (strLower query) mental_health_patterns then
        { query_type := .mental_health, confidence := 8/10,
          retrieval_strategy := "mental_health_focused", emergency_flag := false,
          recommended_k := 3, category_filter := some "mental_health" }
      else if matches_patterns (strLower query) diagnostic_patterns then
        { query_type := .diagnostic, confidence := 75/100,
          retrieval_strategy := "diagnostic_focused", emergency_flag := false,
          recommended_k := 4, category_filter := none }
      else
        { query_type := .general_health, confidence := 6/10,
          retrieval_strategy := "hybrid_search", emergency_flag := false,
          recommended_k := 5, category_filter := none }) := by
  unfold classify_query
  simp only [hE, Bool.false_eq_true, if_false, hI]
  rfl

/-- Witness for C5 at an interaction query with no upstream intent. -/
theorem classify_query_pattern_cascade_witness :
    matches_patterns (strLower "can i take aspirin with alcohol") emergency_patterns = false ∧
    classify_query "can i take aspirin with alcohol" none =
      { query_type := .drug_interaction, confidence := 85/100,
        retrieval_strategy := "interaction_focused", emergency_flag := false,
        recommended_k := 3, category_filter := some "interaction" } := by
  refine ⟨by decide, ?_⟩
  rw [classify_query_pattern_cascade "can i take aspirin with alcohol" none (by decide) rfl]
  simp only [show matches_patterns (strLower "can i take aspirin with alcohol")
    interaction_patterns = true from by decide, if_true]

/-- C2: for every generated text matching at least one critical-unsafe
pattern, `validate_response` returns level UNSAFE, is_safe false,
confidence_score 0, and a final text containing both "healthcare" and
"professional", for every combination of supplied sources and query type. -/
theorem validate_response_critical_unsafe (response : String)
    (sources : Option (List SourceDict)) (query_type : Option String)
    (h : contains_critical_unsafe_content (strLower response) = true) :
    (validate_response response sources query_type).level = .unsafe_level ∧
    (validate_response response sources query_type).is_safe = false ∧
    (validate_response response sources query_type).confidence_score = 0 ∧
    containsSub (validate_response response sources query_type).modified_response
      "healthcare" = true ∧
    containsSub (validate_response response sources query_type).modified_response
      "professional" = true := by
  unfold validate_response
  simp only [h, if_true]
  refine ⟨?_, ?_, ?_, ?_, ?_⟩ <;> first
    | trivial
    | decide

/-- Witness for C2 at a text matching the first critical pattern, with
sources and a query type supplied. -/
theorem validate_response_critical_unsafe_witness :
    contains_critical_unsafe_content (strLower "Stop taking medication now") = true ∧
    ((validate_response "Stop taking medication now"
        (some [{ source := "internal_kb", confidence := 1 }]) (some "medication_info")).level
      = .unsafe_level ∧
    (validate_response "Stop taking medication now"
        (some [{ source := "internal_kb", confidence := 1 }]) (some "medication_info")).is_safe
      = false ∧
    (validate_response "Stop taking medication now"
        (some [{ source := "internal_kb", confidence := 1 }])
        (some "medication_info")).confidence_score = 0 ∧
    containsSub (validate_response "Stop taking medication now"
        (some [{ source := "internal_kb", confidence := 1 }])
        (some "medication_info")).modified_response "healthcare" = true ∧
    containsSub (validate_response "Stop taking medication now"
        (some [{ source := "internal_kb", confidence := 1 }])
        (some "medication_info")).modified_response "professional" = true) :=
  ⟨by decide, validate_response_critical_unsafe "Stop taking medication now"
    (some [{ source := "internal_kb", confidence := 1 }]) (some "medication_info") (by decide)⟩

/-- C3 (divergence witness): on the input
"You should stop taking your medication immediately" the validator
returns level SAFE, not UNSAFE, for every choice of sources and query
type: the word "your" between "stop taking" and "medication" falls
outside the `\s+` of the critical pattern, so no critical pattern
matches (the source's own example usage labels this input Unsafe). -/
theorem validate_response_stop_taking_medication_not_unsafe
    (sources : Option (List SourceDict)) (query_type : Option String) :
    (validate_response "You should stop taking your medication immediately"
        sources query_type).level = ValidationLevel.safe ∧
    ValidationLevel.safe ≠ ValidationLevel.unsafe_level := by
  have h1 : contains_critical_unsafe_content
      (strLower "You should stop taking your medication immediately") = false := by decide
  have h2 : contains_emergency_indicators
      (strLower "You should stop taking your medication immediately") = false := by decide
  have h3 : contains_warning_patterns
      (strLower "You should stop taking your medication immediately") = false := by decide
  unfold validate_response
  simp [h1, h2, h3]

/-- C10: whenever the emergency-indicator check fires and the
critical-unsafe check did not, `validate_response` reports
sources_verified true, confidence_score 1 and is_safe true
unconditionally, for every sources argument (absent, empty or entirely
non-credible) and every query type: the emergency path reports source
verification without performing any. -/
theorem validate_response_emergency_overrides_sources (response : String)
    (sources : Option (List SourceDict)) (query_type : Option String)
    (hc : contains_critical_unsafe_content (strLower response) = false)
    (he : contains_emergency_indicators (strLower response) = true) :
    (validate_response response sources query_type).sources_verified = true ∧
    (validate_response response sources query_type).confidence_score = 1 ∧
    (validate_response response sources query_type).is_safe = true := by
  unfold validate_response
  simp [hc, he]

/-- Witness for C10 at "call 911" with a single non-credible,
low-confidence source supplied. -/
theorem validate_response_emergency_overrides_sources_witness :
    contains_critical_unsafe_content (strLower "call 911") = false ∧
    contains_emergency_indicators (strLower "call 911") = true ∧
    ((validate_response "call 911" (some [{ source := "random blog", confidence := 1/10 }])
        none).sources_verified = true ∧
    (validate_response "call 911" (some [{ source := "random blog", confidence := 1/10 }])
        none).confidence_score = 1 ∧
    (validate_response "call 911" (some [{ source := "random blog", confidence := 1/10 }])
        none).is_safe = true) :=
  ⟨by decide, by decide, validate_response_emergency_overrides_sources "call 911"
    (some [{ source := "random blog", confidence := 1/10 }]) none (by decide) (by decide)⟩

/-- C6: for every input text, sources list (or none) and query type, the
confidence_score of the result of `validate_response` lies within
[0, 1]: it is 0 on the UNSAFE path, 1 on the EMERGENCY path, and
explicitly clamped on the SAFE/WARNING scoring path. -/
theorem validate_response_confidence_in_unit_interval (response : String)
    (sources : Option (List SourceDict)) (query_type : Option String) :
    0 ≤ (validate_response response sources query_type).confidence_score ∧
    (validate_response response sources query_type).confidence_score ≤ 1 := by
  unfold validate_response
  by_cases h1 : contains_critical_unsafe_content (strLower response) = true
  · simp only [h1, if_true]
    exact ⟨le_refl 0, by norm_num⟩
  · rw [Bool.not_eq_true] at h1
    by_cases h2 : contains_emergency_indicators (strLower response) = true
    · simp only [h1, h2, Bool.false_eq_true, if_false, if_true]
      exact ⟨by norm_num, le_refl 1⟩
    · rw [Bool.not_eq_true] at h2
      simp only [h1, h2, Bool.false_eq_true, if_false]
      unfold calculate_confidence_score
      exact ⟨le_max_left 0 _, max_le (by norm_num) (min_le_left 1 _)⟩

/-- The loop of `_verify_sources` computed in closed form: it succeeds iff
every source meets the 0.7 confidence threshold, and then returns the
accumulator plus the number of whitelisted sources. -/
theorem verifyLoop_eq (sources : List SourceDict) (acc : Nat) :
    verifyLoop sources acc =
      if ∀ s ∈ sources, 7/10 ≤ s.confidence then
        some (acc + sources.countP isCredibleSource) else none := by
  induction sources generalizing acc with
  | nil => simp [verifyLoop]
  | cons s rest ih =>
      simp only [verifyLoop]
      by_cases hs : s.confidence < 7/10
      · rw [if_pos hs, if_neg]
        push_neg
        exact ⟨s, List.mem_cons_self s rest, hs⟩
      · rw [if_neg hs, ih, List.countP_cons]
        have hs7 : 7/10 ≤ s.confidence := not_lt.mp hs
        have hcons : (∀ x ∈ s :: rest, 7/10 ≤ x.confidence) ↔
            ∀ x ∈ rest, 7/10 ≤ x.confidence := by
          constructor
          · intro hall x hx
            exact hall x (List.mem_cons_of_mem s hx)
          · intro hall x hx
            rcases List.mem_cons.mp hx with h | h
            · exact h ▸ hs7
            · exact hall x h
        by_cases hrest : ∀ x ∈ rest, 7/10 ≤ x.confidence
        · rw [if_pos hrest, if_pos (hcons.mpr hrest)]
          by_cases hc : isCredibleSource s = true
          · rw [if_pos hc, if_pos hc]
            congr 1
            omega
          · rw [if_neg hc, if_neg hc, Nat.add_zero]
        · rw [if_neg hrest, if_neg fun hall => hrest (hcons.mp hall)]

/-- `_verify_sources` in closed form. -/
theorem verify_sources_iff (sources : List SourceDict) :
    verify_sources sources = true ↔
      sources ≠ [] ∧ (∀ s ∈ sources, 7/10 ≤ s.confidence) ∧
        sources.length ≤ 2 * sources.countP isCredibleSource := by
  unfold verify_sources
  by_cases hnil : sources = []
  · simp [hnil]
  · rw [if_neg hnil, verifyLoop_eq]
    by_cases hall : ∀ s ∈ sources, 7/10 ≤ s.confidence
    · rw [if_pos hall]
      constructor
      · intro h
        simp only [Nat.zero_add, decide_eq_true_eq] at h
        refine ⟨hnil, hall, ?_⟩
        have h2 : (sources.length : ℚ) ≤ 2 * (sources.countP isCredibleSource : ℚ) := by
          linarith
        exact_mod_cast h2
      · rintro ⟨-, -, h⟩
        simp only [Nat.zero_add, decide_eq_true_eq]
        have h2 : (sources.length : ℚ) ≤ 2 * (sources.countP isCredibleSource : ℚ) := by
          exact_mod_cast h
        linarith
    · rw [if_neg hall]
      simp [hall]

/-- C4: for every sources list, `_verify_sources` returns true iff the
list is non-empty, every source in the batch has confidence at least 0.7,
and at least 50% of the sources are whitelisted (a whitelist entry occurs
as a substring of the lowercased source name); in particular a single
source at confidence 0.69 makes verification false even when every other
source has confidence 1.0. -/
theorem verify_sources_characterization :
    (∀ sources : List SourceDict,
      verify_sources sources = true ↔
        sources ≠ [] ∧ (∀ s ∈ sources, 7/10 ≤ s.confidence) ∧
          sources.length ≤ 2 * sources.countP isCredibleSource) ∧
    (∀ sources : List SourceDict, ∀ s ∈ sources, s.confidence = 69/100 →
      verify_sources sources = false) := by
  refine ⟨verify_sources_iff, ?_⟩
  intro sources s hs h69
  rw [Bool.eq_false_iff]
  intro htrue
  have h := (verify_sources_iff sources).mp htrue
  have h7 := h.2.1 s hs
  rw [h69] at h7
  norm_num at h7

/-- Witness for C4: a single credible source passes at confidence 0.9 and
fails at confidence 0.69. -/
theorem verify_sources_characterization_witness :
    verify_sources [{ source := "internal_kb", confidence := 9/10 }] = true ∧
    verify_sources [{ source := "internal_kb", confidence := 69/100 }] = false := by
  constructor
  · refine (verify_sources_characterization.1 _).mpr ⟨by simp, ?_, by decide⟩
    intro s hs
    rw [List.mem_singleton] at hs
    subst hs
    norm_num
  · exact verify_sources_characterization.2 _ _ (List.mem_singleton.mpr rfl) rfl

/-- C7 counterexample: with four retrieved results whose fourth has zero
relevance and zero source confidence, the synthesized confidence (3/4,
averaged over all four results by the source) differs from the mean of
the averages over the top 3 results actually included in the prompt
context (which is 1). -/
theorem generate_rag_confidence_top3_cex :
    (generate_rag_response "q" ctx4 .general_health fun _ _ => Except.ok "ans").confidence ≠
      (((ctx4.take 3).map fun r => r.relevance_score).sum / ((ctx4.take 3).length : ℚ) +
        ((ctx4.take 3).map fun r => r.document.confidence).sum /
          ((ctx4.take 3).length : ℚ)) / 2 := by
  have h1 : (generate_rag_response "q" ctx4 .general_health
      fun _ _ => Except.ok "ans").confidence = 3/4 := by
    simp [generate_rag_response, ctx4, cexDoc]
    norm_num
  rw [h1]
  simp [ctx4, cexDoc]
  norm_num

/-- C7 (amended): for every non-empty retrieval result list and
non-emergency query type, when the generation collaborator returns
normally the synthesized answer's preliminary confidence equals the mean
of the average relevance score and the average source confidence computed
across the WHOLE context list passed in (not just the top 3 included in
the prompt). -/
theorem generate_rag_confidence_full_average (query : String)
    (context : List RetrievalResult) (query_type : QueryType)
    (llm_generate_func : String → String → Except String String) (ans : String)
    (hne : context ≠ []) (hqt : query_type ≠ .emergency)
    (hok : ∀ p c, llm_generate_func p c = Except.ok ans) :
    (generate_rag_response query context query_type llm_generate_func).confidence =
      ((context.map fun r => r.relevance_score).sum / (context.length : ℚ) +
        (context.map fun r => r.document.confidence).sum / (context.length : ℚ)) / 2 := by
  unfold generate_rag_response
  rw [if_neg hne, if_neg hqt]
  simp only [hok]

/-- Witness for the amended C7 on the four-result context. -/
theorem generate_rag_confidence_full_average_witness :
    ctx4 ≠ [] ∧
    (generate_rag_response "q" ctx4 .general_health fun _ _ => Except.ok "ans").confidence =
      ((ctx4.map fun r => r.relevance_score).sum / (ctx4.length : ℚ) +
        (ctx4.map fun r => r.document.confidence).sum / (ctx4.length : ℚ)) / 2 :=
  ⟨by simp [ctx4], generate_rag_confidence_full_average "q" ctx4 .general_health
    (fun _ _ => Except.ok "ans") "ans" (by simp [ctx4]) (by simp) fun _ _ => rfl⟩

/-- C9: for every query with a non-empty retrieval result list and a
non-emergency query type, if the generation collaborator raises an
exception then `generate_rag_response` does not propagate it and returns
the safe fallback answer with confidence 0.1 and no sources. -/
theorem generate_rag_error_fallback (query : String)
    (context : List RetrievalResult) (query_type : QueryType)
    (llm_generate_func : String → String → Except String String) (err : String)
    (hne : context ≠ []) (hqt : query_type ≠ .emergency)
    (hfail : ∀ p c, llm_generate_func p c = Except.error err) :
    (generate_rag_response query context query_type llm_generate_func).answer =
        generation_error_answer ∧
    (generate_rag_response query context query_type llm_generate_func).confidence = 1/10 ∧
    (generate_rag_response query context query_type llm_generate_func).sources = [] := by
  unfold generate_rag_response
  rw [if_neg hne, if_neg hqt]
  simp only [hfail]
  refine ⟨?_, ?_, ?_⟩ <;> first
    | trivial
    | rfl

/-- Witness for C9 with an always-raising collaborator. -/
theorem generate_rag_error_fallback_witness :
    [sampleResult] ≠ ([] : List RetrievalResult) ∧
    ((generate_rag_response "q" [sampleResult] .general_health
        fun _ _ => Except.error "boom").answer = generation_error_answer ∧
    (generate_rag_response "q" [sampleResult] .general_health
        fun _ _ => Except.error "boom").confidence = 1/10 ∧
    (generate_rag_response "q" [sampleResult] .general_health
        fun _ _ => Except.error "boom").sources = []) :=
  ⟨by simp, generate_rag_error_fallback "q" [sampleResult] .general_health
    (fun _ _ => Except.error "boom") "boom" (by simp) (by simp) fun _ _ => rfl⟩

/-- Transitivity of the descending-relevance comparison. -/
theorem relDesc_trans (a b c : RetrievalResult)
    (hab : (fun a b : RetrievalResult =>
      decide (b.relevance_score ≤ a.relevance_score)) a b)
    (hbc : (fun a b : RetrievalResult =>
      decide (b.relevance_score ≤ a.relevance_score)) b c) :
    (fun a b : RetrievalResult =>
      decide (b.relevance_score ≤ a.relevance_score)) a c := by
  simp only [decide_eq_true_eq] at *
  exact le_trans hbc hab

/-- Totality of the descending-relevance comparison. -/
theorem relDesc_total (a b : RetrievalResult) :
    ((fun a b : RetrievalResult =>
      decide (b.relevance_score ≤ a.relevance_score)) a b ||
     (fun a b : RetrievalResult =>
      decide (b.relevance_score ≤ a.relevance_score)) b a) = true := by
  simp only [Bool.or_eq_true, decide_eq_true_eq]
  exact le_total b.relevance_score a.relevance_score

/-- C8: for every retrieval result list whose relevance scores are within
the documented [0,1] range and every query type, after type-specific
post-processing every relevance score is at most 1 (a result whose
document category is in the boost table is multiplied by the boost factor
and clamped to 1), and the returned list is ordered by descending
relevance score with ties keeping the prior relative order of the boosted
list (stable sort, stated as: filtering on any fixed score value yields
the boosted list's order). -/
theorem apply_type_specific_filtering_spec (results : List RetrievalResult)
    (query_type : QueryType)
    (hin : ∀ r ∈ results, r.relevance_score ≤ 1) :
    (∀ r ∈ apply_type_specific_filtering results query_type, r.relevance_score ≤ 1) ∧
    (apply_type_specific_filtering results query_type).Pairwise
      (fun a b => b.relevance_score ≤ a.relevance_score) ∧
    ∀ q : ℚ, (apply_type_specific_filtering results query_type).filter
        (fun r => decide (r.relevance_score = q)) =
      (boostResults results query_type).filter fun r => decide (r.relevance_score = q) := by
  have hboost : ∀ r ∈ boostResults results query_type, r.relevance_score ≤ 1 := by
    intro r hr
    unfold boostResults at hr
    rw [List.mem_map] at hr
    obtain ⟨x, hx, rfl⟩ := hr
    cases hbm : boost_map query_type x.document.category with
    | none => simpa [hbm] using hin x hx
    | some b => simpa [hbm] using min_le_left 1 (x.relevance_score * b)
  refine ⟨?_, ?_, ?_⟩
  · intro r hr
    unfold apply_type_specific_filtering sortByRelevanceDesc at hr
    rw [List.mem_mergeSort] at hr
    exact hboost r hr
  · unfold apply_type_specific_filtering sortByRelevanceDesc
    exact (List.sorted_mergeSort relDesc_trans relDesc_total
      (boostResults results query_type)).imp fun h => by simpa using h
  · intro q
    unfold apply_type_specific_filtering sortByRelevanceDesc
    have hpairq : ((boostResults results query_type).filter
        fun r => decide (r.relevance_score = q)).Pairwise
        (fun a b : RetrievalResult =>
          decide (b.relevance_score ≤ a.relevance_score)) := by
      apply List.pairwise_of_forall_mem_list
      intro a ha b hb
      rw [List.mem_filter, decide_eq_true_eq] at ha hb
      simp only [decide_eq_true_eq, ha.2, hb.2, le_refl]
    have hsub : List.Sublist
        ((boostResults results query_type).filter
          fun r => decide (r.relevance_score = q))
        (List.mergeSort (boostResults results query_type)
          fun a b => decide (b.relevance_score ≤ a.relevance_score)) :=
      List.sublist_mergeSort relDesc_trans relDesc_total hpairq
        (List.filter_sublist _)
    have hsub2 : List.Sublist
        ((boostResults results query_type).filter
          fun r => decide (r.relevance_score = q))
        ((List.mergeSort (boostResults results query_type)
          fun a b => decide (b.relevance_score ≤ a.relevance_score)).filter
          fun r => decide (r.relevance_score = q)) := by
      have h3 := List.Sublist.filter (fun r => decide (r.relevance_score = q)) hsub
      rwa [List.filter_filter, show
        (fun r : RetrievalResult => decide (r.relevance_score = q) &&
          decide (r.relevance_score = q)) =
        (fun r : RetrievalResult => decide (r.relevance_score = q)) from
        funext fun r => Bool.and_self _] at h3
    have hperm : List.Perm
        ((List.mergeSort (boostResults results query_type)
          fun a b => decide (b.relevance_score ≤ a.relevance_score)).filter
          fun r => decide (r.relevance_score = q))
        ((boostResults results query_type).filter
          fun r => decide (r.relevance_score = q)) :=
      (List.mergeSort_perm (boostResults results query_type) _).filter _
    exact (hsub2.eq_of_length hperm.length_eq.symm).symm

/-- Witness for C8 on a single mental-health result at relevance 0.6. -/
theorem apply_type_specific_filtering_spec_witness :
    (∀ r ∈ [sampleResult], r.relevance_score ≤ 1) ∧
    ((∀ r ∈ apply_type_specific_filtering [sampleResult] .mental_health,
        r.relevance_score ≤ 1) ∧
    (apply_type_specific_filtering [sampleResult] .mental_health).Pairwise
      (fun a b => b.relevance_score ≤ a.relevance_score) ∧
    ∀ q : ℚ, (apply_type_specific_filtering [sampleResult] .mental_health).filter
        (fun r => decide (r.relevance_score = q)) =
      (boostResults [sampleResult] .mental_health).filter
        fun r => decide (r.relevance_score = q)) := by
  have hin : ∀ r ∈ [sampleResult], r.relevance_score ≤ 1 := by
    intro r hr
    rw [List.mem_singleton] at hr
    subst hr
    norm_num [sampleResult]
  exact ⟨hin, apply_type_specific_filtering_spec [sampleResult] .mental_health hin⟩
